import Mathlib

/-!
Verification of the DAA Mother Server (src/server.js) conversation
orchestration core: the SQLite-backed message Store, the history window
query, the two-tier window-size policy, the backend dispatch of the
POST /api/chat route, and the GET /api/models aggregator.

All definitions are shallow embeddings of the JavaScript in
src/server.js.  External I/O (the two AI backends) enters as explicit
oracle parameters; everything else is translated directly.
-/

namespace DAA

/-- One row of the `history` table (src/server.js lines 49-55).
`content` and `image` are TEXT columns that may be NULL (the JS code can
pass `undefined`/`null`), so they are `Option String`.  The `timestamp`
column is monotone with `id` and never consulted by the code, so it is
omitted; ordering is by `id`. -/
structure Turn where
  id : Nat
  role : String
  content : Option String
  image : Option String
deriving DecidableEq

/-- Projection produced by `SELECT role, content, image` in
`getGlobalHistoryFromDB` (src/server.js line 66): the `id` column is not
returned to the caller. -/
structure HistRow where
  role : String
  content : Option String
  image : Option String
deriving DecidableEq

/-- The persistent Store: the `history` table in insertion order.
AUTOINCREMENT assigns `nextId` to the next inserted row, so `rows` is
always in strictly ascending `id` order. -/
structure Store where
  rows : List Turn
  nextId : Nat
deriving DecidableEq

/-- The empty database created on first run. -/
def Store.empty : Store := ⟨[], 0⟩

/-- `saveToDB(role, content, image)` (src/server.js lines 76-80):
`INSERT INTO history (role, content, image) VALUES (?, ?, ?)` with the
id assigned by AUTOINCREMENT. -/
def saveToDB (st : Store) (role : String) (content : Option String)
    (image : Option String) : Store :=
  { rows := st.rows ++ [⟨st.nextId, role, content, image⟩]
    nextId := st.nextId + 1 }

/-- JS truthiness of a nullable string: `null`/`undefined` and the empty
string are falsy. -/
def jsTruthy : Option String → Bool
  | none => false
  | some s => s != ""

/-- JS `x || d` for a nullable string `x` and string default `d`. -/
def jsOrStr (x : Option String) (d : String) : String :=
  match x with
  | none => d
  | some s => if s == "" then d else s

/-- JS `x || null` for a nullable string `x` (src/server.js line 135
passes `lastIncoming.image || null`). -/
def jsOrNull (x : Option String) : Option String :=
  if jsTruthy x then x else none

/-- Whether `pat` occurs at the very start of `s` (on character
lists). -/
def charsHasPre : List Char → List Char → Bool
  | _, [] => true
  | [], _ :: _ => false
  | c :: cs, p :: ps => c == p && charsHasPre cs ps

/-- Whether `pat` occurs anywhere in `s` (on character lists). -/
def charsContains : List Char → List Char → Bool
  | [], pat => charsHasPre [] pat
  | c :: cs, pat => charsHasPre (c :: cs) pat || charsContains cs pat

/-- JS `s.includes(pat)`: substring containment test. -/
def jsIncludes (s pat : String) : Bool :=
  charsContains s.data pat.data

/-- JS `s.toLowerCase()`.  The recall keywords and model tags compared
against are all ASCII, for which per-character lowering coincides with
the JS behavior. -/
def jsToLower (s : String) : String :=
  String.mk (s.data.map Char.toLower)

/-- JS `s.replace(pat, repl)` with a string pattern: replaces only the
first occurrence (src/server.js line 104 strips one leading
"models/"). -/
def jsReplaceFirst (s pat repl : String) : String :=
  match s.splitOn pat with
  | [] => s
  | [x] => x
  | x :: rest => x ++ repl ++ String.intercalate pat rest

/-- Projection of a stored row to the three selected columns. -/
def projRow (t : Turn) : HistRow := ⟨t.role, t.content, t.image⟩

/-- The SQL query of `getGlobalHistoryFromDB` (src/server.js line 66):
`SELECT role, content, image FROM
  (SELECT * FROM history ORDER BY id DESC LIMIT limit) ORDER BY id ASC`.
Because `rows` is kept in ascending `id` order (AUTOINCREMENT insertion
order), `ORDER BY id DESC` is `reverse`, `LIMIT` is `take`, and the
outer `ORDER BY id ASC` is `reverse` again. -/
def historyQuery (rows : List Turn) (limit : Nat) : List HistRow :=
  ((rows.reverse.take limit).reverse).map projRow

/-- `getGlobalHistoryFromDB(fetchMore)` (src/server.js lines 63-71):
`const limit = fetchMore ? 150 : 60` then the query above. -/
def getGlobalHistoryFromDB (st : Store) (fetchMore : Bool) : List HistRow :=
  historyQuery st.rows (if fetchMore then 150 else 60)

/-- Builds a Store by a sequence of `saveToDB` appends starting from the
empty database; each element is `(role, content, image)`. -/
def buildStore (appends : List (String × Option String × Option String)) : Store :=
  appends.foldl (fun st a => saveToDB st a.1 a.2.1 a.2.2) Store.empty

/-- One element of the request body `messages` array
(src/server.js line 122): role, text content, optional base64 image. -/
structure Msg where
  role : String
  content : Option String
  image : Option String
deriving DecidableEq

/-- The POST /api/chat request body `{ messages, model }`
(src/server.js line 122); both fields may be absent. -/
structure ChatRequest where
  messages : Option (List Msg)
  model : Option String
deriving DecidableEq

/-- One element of the `ollamaMessages` array (src/server.js lines
141-147): `{ role, content, ...(image && { images: [image] }) }` — the
`images` key is present only when the image is truthy. -/
structure OllamaMsg where
  role : String
  content : Option String
  images : Option (List String)
deriving DecidableEq

/-- One part of a Gemini content entry (src/server.js lines 170,
174-177): either a text part or an inline base64 data part. -/
inductive GeminiPart where
  | text (t : String)
  | inlineData (mimeType : String) (data : String)
deriving DecidableEq

/-- One element of the `geminiHistory` array (src/server.js lines
168-171). -/
structure GeminiMsg where
  role : String
  parts : List GeminiPart
deriving DecidableEq

/-- The single outbound backend call a chat request performs: either the
Ollama batch POST (src/server.js lines 149-153) or the Gemini
`startChat`/`sendMessageStream` exchange (lines 162-180). -/
inductive BackendCall where
  | ollama (model : String) (messages : List OllamaMsg)
  | gemini (model : String) (systemInstruction : String)
      (history : List GeminiMsg) (lastParts : List GeminiPart)
deriving DecidableEq

/-- What the HTTP caller ends up receiving from POST /api/chat. -/
inductive HttpResponse where
  /-- `res.send(aiText)` in the Ollama branch (line 158). -/
  | batch (text : String)
  /-- `res.end()` after all streamed chunks were written (line 193). -/
  | streamEnd
  /-- `res.status(500).send("Nova Error: " + message)` from the catch
  block (line 197). -/
  | error500 (msg : String)
  /-- an exception raised before the try block (lines 122-125), which
  escapes the async handler unhandled: no HTTP response is produced. -/
  | thrown (msg : String)
deriving DecidableEq

/-- Observable outcome of one POST /api/chat request: the Store after
the request, the chunks written with `res.write` (streaming branch
only), the backend call that was dispatched (if any), the value of the
local variable `chatHistory` (the assembled context window), and the
response the caller receives. -/
structure ChatResult where
  store : Store
  written : List String
  sentToBackend : Option BackendCall
  window : List HistRow
  response : HttpResponse
deriving DecidableEq

/-- The recall-intent test (src/server.js line 129):
`userText.includes("summera") || userText.includes("sammanfatta") ||
userText.includes("minns du")`. -/
def isSummarizeOf (userText : String) : Bool :=
  jsIncludes userText "summera" || jsIncludes userText "sammanfatta" ||
    jsIncludes userText "minns du"

/-- History row to Ollama message (src/server.js lines 141-145). -/
def toOllamaMsg (m : HistRow) : OllamaMsg :=
  { role := m.role
    content := m.content
    images := if jsTruthy m.image then some [m.image.getD ""] else none }

/-- The incoming message pushed last onto `ollamaMessages`
(src/server.js line 147). -/
def currentOllamaMsg (lastIncoming : Msg) : OllamaMsg :=
  { role := "user"
    content := lastIncoming.content
    images :=
      if jsTruthy lastIncoming.image then some [lastIncoming.image.getD ""]
      else none }

/-- History row to Gemini content entry (src/server.js lines 168-171):
role `assistant` maps to `model`, everything else to `user`; the text
part is `msg.content || " "`; a truthy image adds an inline data part. -/
def toGeminiMsg (m : HistRow) : GeminiMsg :=
  { role := if m.role == "assistant" then "model" else "user"
    parts := [GeminiPart.text (jsOrStr m.content " ")] ++
      (if jsTruthy m.image then
        [GeminiPart.inlineData "image/jpeg" (m.image.getD "")]
      else []) }

/-- The parts of the incoming message sent to Gemini (src/server.js
lines 174-177). -/
def lastPartsOf (lastIncoming : Msg) : List GeminiPart :=
  [GeminiPart.text (jsOrStr lastIncoming.content " ")] ++
    (if jsTruthy lastIncoming.image then
      [GeminiPart.inlineData "image/jpeg" (lastIncoming.image.getD "")]
    else [])

/-- The Turn that `saveToDB('user', lastIncoming.content,
lastIncoming.image || null)` inserts (src/server.js line 135) when the
Store is `st`. -/
def userTurn (st : Store) (lastIncoming : Msg) : Turn :=
  ⟨st.nextId, "user", lastIncoming.content, jsOrNull lastIncoming.image⟩

/-- The body of the try block of POST /api/chat (src/server.js lines
127-198) once `lastIncoming` has been extracted.  `personaInstr` is the
opaque persona string; `ollamaOutcome` is the Ollama fetch oracle
(`.error e` covers transport errors and malformed response shapes);
`geminiChunks` are the text fragments the Gemini stream emits before it
either completes (`geminiStreamError = none`) or raises
(`geminiStreamError = some e`). -/
def processChat (st : Store) (lastIncoming : Msg) (modelField : Option String)
    (personaInstr : String) (ollamaOutcome : Except String String)
    (geminiChunks : List String) (geminiStreamError : Option String) :
    ChatResult :=
  let currentModel := jsOrStr modelField "gemini-1.5-flash"
  let userText := jsToLower (jsOrStr lastIncoming.content "")
  let isSummarize := isSummarizeOf userText
  let chatHistory := getGlobalHistoryFromDB st isSummarize
  let st1 := saveToDB st "user" lastIncoming.content (jsOrNull lastIncoming.image)
  if !(jsIncludes currentModel "gemini") then
    let ollamaMessages :=
      chatHistory.map toOllamaMsg ++ [currentOllamaMsg lastIncoming]
    match ollamaOutcome with
    | .error e =>
      ⟨st1, [], some (.ollama currentModel ollamaMessages), chatHistory,
        .error500 ("Nova Error: " ++ e)⟩
    | .ok aiText =>
      ⟨saveToDB st1 "assistant" (some aiText) none, [],
        some (.ollama currentModel ollamaMessages), chatHistory,
        .batch aiText⟩
  else
    let geminiHistory := chatHistory.map toGeminiMsg
    let lastParts := lastPartsOf lastIncoming
    let call := BackendCall.gemini currentModel personaInstr geminiHistory lastParts
    match geminiStreamError with
    | some e =>
      ⟨st1, geminiChunks, some call, chatHistory,
        .error500 ("Nova Error: " ++ e)⟩
    | none =>
      ⟨saveToDB st1 "assistant" (some (String.join geminiChunks)) none,
        geminiChunks, some call, chatHistory, .streamEnd⟩

/-- The POST /api/chat handler (src/server.js lines 121-199).  Lines
122-125 run before the try block: when `messages` is absent,
`messages[messages.length - 1]` raises a TypeError that escapes the
async handler; when `messages` is the empty array, `messages[-1]` is
`undefined` and `lastIncoming.content` raises likewise. -/
def chatHandler (st : Store) (req : ChatRequest) (personaInstr : String)
    (ollamaOutcome : Except String String) (geminiChunks : List String)
    (geminiStreamError : Option String) : ChatResult :=
  match req.messages with
  | none => ⟨st, [], none, [], .thrown "TypeError: messages is undefined"⟩
  | some msgs =>
    match msgs.getLast? with
    | none => ⟨st, [], none, [], .thrown "TypeError: lastIncoming is undefined"⟩
    | some lastIncoming =>
      processChat st lastIncoming req.model personaInstr ollamaOutcome
        geminiChunks geminiStreamError

/-- One entry of the Gemini model-listing response (src/server.js
lines 100-104). -/
structure GeminiModelEntry where
  name : String
  supportedGenerationMethods : List String
  displayName : String
deriving DecidableEq

/-- One entry of the Ollama `/api/tags` response (src/server.js
line 113). -/
structure OllamaModelEntry where
  name : String
deriving DecidableEq

/-- One `{ id, name }` entry of the merged model catalog
(src/server.js lines 104, 113). -/
structure CatalogEntry where
  id : String
  name : String
deriving DecidableEq

/-- What GET /api/models sends back: `res.json(allModels)` always means
status 200 with the merged list. -/
structure ModelsResult where
  status : Nat
  body : List CatalogEntry
deriving DecidableEq

/-- The GET /api/models handler (src/server.js lines 93-118).
`googleApiKey` is `process.env.GOOGLE_API_KEY`; `geminiListing` is the
oracle for the cloud listing fetch (`.error` covers a thrown fetch or a
response without a usable `models` array, both swallowed by the inner
try/catch); `ollamaListing` is the oracle for the local `/api/tags`
fetch, carrying `response.ok` and the parsed models on success. -/
def modelsHandler (googleApiKey : Option String)
    (geminiListing : Except String (List GeminiModelEntry))
    (ollamaListing : Except String (Bool × List OllamaModelEntry)) :
    ModelsResult :=
  let allModels : List CatalogEntry := []
  let allModels :=
    if jsTruthy googleApiKey then
      match geminiListing with
      | .error _ => allModels
      | .ok ms =>
        allModels ++
          ((ms.filter (fun m =>
              jsIncludes m.name "gemini" &&
                m.supportedGenerationMethods.contains "generateContent")).map
            (fun m =>
              ⟨jsReplaceFirst m.name "models/" "", "☁️ " ++ m.displayName⟩))
    else allModels
  let allModels :=
    match ollamaListing with
    | .error _ => allModels
    | .ok (ok, ms) =>
      if ok then
        allModels ++ (ms.map (fun m => ⟨m.name, "🏠 Ollama: " ++ m.name⟩))
      else allModels
  ⟨200, allModels⟩

/-! Helper lemmas shared by several claim proofs. -/

/-- The element sitting right after a known prefix of a list. -/
theorem getElem_past_front {α : Type} (xs : List α) (y : α) (zs : List α) :
    (xs ++ y :: zs)[xs.length]? = some y := by
  induction xs with
  | nil => simp
  | cons a as ih => simpa using ih

/-- Taking one element past a known prefix keeps exactly that prefix and
the next element. -/
theorem take_past_front {α : Type} (xs : List α) (y : α) (zs : List α) :
    (xs ++ y :: zs).take (xs.length + 1) = xs ++ [y] := by
  induction xs with
  | nil => rfl
  | cons a as ih => simpa using ih

/-- Reversing, taking `k`, and reversing back yields the last `k`
elements in their original order. -/
theorem reverse_take_reverse {α : Type} (l : List α) (k : Nat) :
    (l.reverse.take k).reverse = l.drop (l.length - k) := by
  rw [List.take_reverse, List.reverse_reverse]

/-- On a request whose `messages` array is nonempty, the route handler
is exactly the try-block body applied to the last array element. -/
theorem chatHandler_valid (st : Store) (msgs : List Msg) (mo : Option String)
    (pe : String) (oll : Except String String) (chunks : List String)
    (gerr : Option String) (last : Msg) (h : msgs.getLast? = some last) :
    chatHandler st ⟨some msgs, mo⟩ pe oll chunks gerr =
      processChat st last mo pe oll chunks gerr := by
  simp only [chatHandler, h]

/-- Every row the history query returns is the projection of a row
already present in the table. -/
theorem historyQuery_mem (rows : List Turn) (n : Nat) (hr : HistRow)
    (h : hr ∈ historyQuery rows n) : ∃ t, t ∈ rows ∧ hr = projRow t := by
  unfold historyQuery at h
  rcases List.mem_map.mp h with ⟨t, ht, rfl⟩
  refine ⟨t, ?_, rfl⟩
  rw [List.mem_reverse] at ht
  exact List.mem_reverse.mp (List.take_subset n rows.reverse ht)

/-- Whatever the backend oracles do, the try-block body leaves the Store
as the old rows, then the incoming user Turn, then possibly more. -/
theorem processChat_rows_shape (st : Store) (last : Msg) (mo : Option String)
    (pe : String) (oll : Except String String) (chunks : List String)
    (gerr : Option String) :
    ∃ rest, (processChat st last mo pe oll chunks gerr).store.rows =
      st.rows ++ userTurn st last :: rest := by
  rcases oll with e | aiText <;> rcases gerr with _ | e2 <;>
    cases h : jsIncludes (jsOrStr mo "gemini-1.5-flash") "gemini" <;>
      simp [processChat, h, saveToDB, userTurn]

/-- True exactly when the try-block body's single backend call fails:
for models routed to Gemini the stream raises before completion, for all
other models the Ollama exchange raises. -/
def exceptFailed : Except String String → Bool
  | .error _ => true
  | .ok _ => false

/-- Whether the backend oracle inputs describe a failed backend call for
the given `model` field. -/
def backendFails (modelField : Option String)
    (ollamaOutcome : Except String String)
    (geminiStreamError : Option String) : Bool :=
  if jsIncludes (jsOrStr modelField "gemini-1.5-flash") "gemini" then
    geminiStreamError.isSome
  else
    exceptFailed ollamaOutcome

/-- C1: for every POST /chat request the incoming user Turn (role, the
submitted content, and its optional image) is appended to the Store
immediately after the pre-existing rows — hence before any assistant row
— and this holds for every backend outcome, including failures, so the
user Turn is in the Store even when the backend call fails. -/
theorem userTurn_persisted_before_dispatch (st : Store) (msgs : List Msg)
    (mo : Option String) (pe : String) (oll : Except String String)
    (chunks : List String) (gerr : Option String) (last : Msg)
    (h : msgs.getLast? = some last) :
    (chatHandler st ⟨some msgs, mo⟩ pe oll chunks gerr).store.rows.take
        (st.rows.length + 1) = st.rows ++ [userTurn st last] ∧
    (chatHandler st ⟨some msgs, mo⟩ pe oll chunks gerr).store.rows[st.rows.length]?
      = some (userTurn st last) := by
  rw [chatHandler_valid st msgs mo pe oll chunks gerr last h]
  obtain ⟨rest, hr⟩ := processChat_rows_shape st last mo pe oll chunks gerr
  rw [hr]
  exact ⟨take_past_front _ _ _, getElem_past_front _ _ _⟩

/-- Witness for C1 at a concrete failing Ollama request. -/
theorem userTurn_persisted_before_dispatch_witness :
    ([(⟨"user", some "hej", none⟩ : Msg)].getLast? =
        some (⟨"user", some "hej", none⟩ : Msg)) ∧
    ((chatHandler Store.empty ⟨some [⟨"user", some "hej", none⟩], some "llama3"⟩
          "p" (.error "boom") [] none).store.rows.take
        (Store.empty.rows.length + 1) =
      Store.empty.rows ++ [userTurn Store.empty ⟨"user", some "hej", none⟩] ∧
    (chatHandler Store.empty ⟨some [⟨"user", some "hej", none⟩], some "llama3"⟩
          "p" (.error "boom") [] none).store.rows[Store.empty.rows.length]?
      = some (userTurn Store.empty ⟨"user", some "hej", none⟩)) :=
  ⟨by decide,
    userTurn_persisted_before_dispatch Store.empty _ _ _ _ _ _ _ (by decide)⟩

/-- C2: when the backend call fails — the batch exchange raises, or the
stream raises before completion — the Store after the request is exactly
the old rows plus the user Turn: no assistant Turn is appended and any
partial streamed accumulation is discarded. -/
theorem no_assistant_turn_on_backend_failure (st : Store) (msgs : List Msg)
    (mo : Option String) (pe : String) (oll : Except String String)
    (chunks : List String) (gerr : Option String) (last : Msg)
    (h : msgs.getLast? = some last)
    (hfail : backendFails mo oll gerr = true) :
    (chatHandler st ⟨some msgs, mo⟩ pe oll chunks gerr).store.rows =
      st.rows ++ [userTurn st last] ∧
    ∀ t ∈ (chatHandler st ⟨some msgs, mo⟩ pe oll chunks gerr).store.rows,
      t.role = "assistant" → t ∈ st.rows := by
  rw [chatHandler_valid st msgs mo pe oll chunks gerr last h]
  have h1 : (processChat st last mo pe oll chunks gerr).store.rows =
      st.rows ++ [userTurn st last] := by
    cases hg : jsIncludes (jsOrStr mo "gemini-1.5-flash") "gemini"
    · rcases oll with e | aiText
      · simp [processChat, hg, saveToDB, userTurn]
      · simp [backendFails, hg, exceptFailed] at hfail
    · rcases gerr with _ | e
      · simp [backendFails, hg] at hfail
      · simp [processChat, hg, saveToDB, userTurn]
  refine ⟨h1, ?_⟩
  intro t ht hrole
  rw [h1, List.mem_append] at ht
  rcases ht with h2 | h2
  · exact h2
  · rw [List.mem_singleton] at h2
    subst h2
    simp [userTurn] at hrole

/-- Witness for C2 at a concrete failing Ollama request. -/
theorem no_assistant_turn_on_backend_failure_witness :
    ([(⟨"user", some "hej", none⟩ : Msg)].getLast? =
        some (⟨"user", some "hej", none⟩ : Msg)) ∧
    backendFails (some "llama3") (.error "boom") none = true ∧
    ((chatHandler Store.empty ⟨some [⟨"user", some "hej", none⟩], some "llama3"⟩
          "p" (.error "boom") [] none).store.rows =
      Store.empty.rows ++ [userTurn Store.empty ⟨"user", some "hej", none⟩] ∧
    ∀ t ∈ (chatHandler Store.empty
          ⟨some [⟨"user", some "hej", none⟩], some "llama3"⟩
          "p" (.error "boom") [] none).store.rows,
      t.role = "assistant" → t ∈ Store.empty.rows) :=
  ⟨by decide, by decide,
    no_assistant_turn_on_backend_failure Store.empty _ _ _ _ _ _ _
      (by decide) (by decide)⟩

/-- C3: on the streaming variant, when the stream completes, the chunks
written to the caller are exactly the emitted fragments in emission
order, and the assistant Turn persisted afterwards carries exactly their
concatenation. -/
theorem streaming_relay_and_concat (st : Store) (msgs : List Msg)
    (mo : Option String) (pe : String) (oll : Except String String)
    (chunks : List String) (last : Msg)
    (h : msgs.getLast? = some last)
    (hg : jsIncludes (jsOrStr mo "gemini-1.5-flash") "gemini" = true) :
    (chatHandler st ⟨some msgs, mo⟩ pe oll chunks none).written = chunks ∧
    (chatHandler st ⟨some msgs, mo⟩ pe oll chunks none).store.rows =
      st.rows ++ [userTurn st last,
        ⟨st.nextId + 1, "assistant",
          some (String.join
            ((chatHandler st ⟨some msgs, mo⟩ pe oll chunks none).written)),
          none⟩] ∧
    (chatHandler st ⟨some msgs, mo⟩ pe oll chunks none).response =
      HttpResponse.streamEnd := by
  rw [chatHandler_valid st msgs mo pe oll chunks none last h]
  refine ⟨by simp [processChat, hg], ?_, by simp [processChat, hg]⟩
  simp [processChat, hg, saveToDB, userTurn]

/-- Witness for C3 at a concrete two-fragment stream. -/
theorem streaming_relay_and_concat_witness :
    ([(⟨"user", some "hej", none⟩ : Msg)].getLast? =
        some (⟨"user", some "hej", none⟩ : Msg)) ∧
    jsIncludes (jsOrStr none "gemini-1.5-flash") "gemini" = true ∧
    ((chatHandler Store.empty ⟨some [⟨"user", some "hej", none⟩], none⟩ "p"
          (.ok "unused") ["Hel", "lo"] none).written = ["Hel", "lo"] ∧
    (chatHandler Store.empty ⟨some [⟨"user", some "hej", none⟩], none⟩ "p"
          (.ok "unused") ["Hel", "lo"] none).store.rows =
      Store.empty.rows ++ [userTurn Store.empty ⟨"user", some "hej", none⟩,
        ⟨Store.empty.nextId + 1, "assistant",
          some (String.join
            ((chatHandler Store.empty ⟨some [⟨"user", some "hej", none⟩], none⟩
                "p" (.ok "unused") ["Hel", "lo"] none).written)),
          none⟩] ∧
    (chatHandler Store.empty ⟨some [⟨"user", some "hej", none⟩], none⟩ "p"
          (.ok "unused") ["Hel", "lo"] none).response =
      HttpResponse.streamEnd) :=
  ⟨by decide, by decide,
    streaming_relay_and_concat Store.empty _ _ _ _ _ _ (by decide) (by decide)⟩

/-- A history read as the request pipeline performs it: `db.all` returns
the query result and leaves the database unchanged. -/
def queryRead (st : Store) (limit : Nat) : List HistRow × Store :=
  (historyQuery st.rows limit, st)

/-- C4: on a Store built by any sequence of appends, reading the most
recent `k` rows (for `k` at most the number of rows) returns exactly the
last `k` rows by id, in ascending chronological (insertion) order, and a
second read with no intervening append returns the same sequence. -/
theorem recent_returns_last_k_ascending
    (appends : List (String × Option String × Option String)) (k : Nat)
    (h : k ≤ (buildStore appends).rows.length) :
    (queryRead (buildStore appends) k).1 =
      ((buildStore appends).rows.drop
        ((buildStore appends).rows.length - k)).map projRow ∧
    ((queryRead (buildStore appends) k).1).length = k ∧
    (queryRead ((queryRead (buildStore appends) k).2) k).1 =
      (queryRead (buildStore appends) k).1 := by
  refine ⟨?_, ?_, rfl⟩
  · show historyQuery (buildStore appends).rows k = _
    unfold historyQuery
    rw [reverse_take_reverse]
  · show (historyQuery (buildStore appends).rows k).length = k
    unfold historyQuery
    simp only [List.length_map, List.length_reverse, List.length_take]
    omega

/-- Witness for C4: the scenario of two appended turns read back with
k = 2, in insertion order. -/
theorem recent_returns_last_k_ascending_witness :
    2 ≤ (buildStore [("user", some "hej", none),
          ("assistant", some "hej själv", none)]).rows.length ∧
    ((queryRead (buildStore [("user", some "hej", none),
          ("assistant", some "hej själv", none)]) 2).1 =
      ((buildStore [("user", some "hej", none),
          ("assistant", some "hej själv", none)]).rows.drop
        ((buildStore [("user", some "hej", none),
          ("assistant", some "hej själv", none)]).rows.length - 2)).map projRow ∧
    ((queryRead (buildStore [("user", some "hej", none),
          ("assistant", some "hej själv", none)]) 2).1).length = 2 ∧
    (queryRead ((queryRead (buildStore [("user", some "hej", none),
          ("assistant", some "hej själv", none)]) 2).2) 2).1 =
      (queryRead (buildStore [("user", some "hej", none),
          ("assistant", some "hej själv", none)]) 2).1) :=
  ⟨by decide, recent_returns_last_k_ascending _ 2 (by decide)⟩

/-- The context window the try-block body records is exactly the history
read performed on the pre-request Store with the two-tier flag computed
from the lowercased incoming content. -/
theorem processChat_window (st : Store) (last : Msg) (mo : Option String)
    (pe : String) (oll : Except String String) (chunks : List String)
    (gerr : Option String) :
    (processChat st last mo pe oll chunks gerr).window =
      getGlobalHistoryFromDB st
        (isSummarizeOf (jsToLower (jsOrStr last.content ""))) := by
  rcases oll with e | a <;> rcases gerr with _ | e2 <;>
    cases hg : jsIncludes (jsOrStr mo "gemini-1.5-flash") "gemini" <;>
      simp [processChat, hg]

/-- C5: whenever the Store holds at least 150 rows, the context window
passed along holds exactly 150 prior Turns when the lowercased incoming
content contains one of the fixed recall keywords (substring containment
only), and exactly 60 prior Turns otherwise. -/
theorem window_size_two_tier (st : Store) (msgs : List Msg)
    (mo : Option String) (pe : String) (oll : Except String String)
    (chunks : List String) (gerr : Option String) (last : Msg)
    (h : msgs.getLast? = some last) (hbig : 150 ≤ st.rows.length) :
    (chatHandler st ⟨some msgs, mo⟩ pe oll chunks gerr).window.length =
      if isSummarizeOf (jsToLower (jsOrStr last.content "")) then 150
      else 60 := by
  rw [chatHandler_valid st msgs mo pe oll chunks gerr last h,
    processChat_window]
  unfold getGlobalHistoryFromDB historyQuery
  cases isSummarizeOf (jsToLower (jsOrStr last.content "")) <;>
    simp only [List.length_map, List.length_reverse, List.length_take,
      if_true, if_false, Bool.false_eq_true, ite_false, ite_true] <;>
    omega

set_option maxRecDepth 8000 in
/-- Witness for C5: the spec scenario — incoming content
"kan du sammanfatta vårt samtal" on a 150-row store yields a window of
150 Turns. -/
theorem window_size_two_tier_witness :
    ([(⟨"user", some "kan du sammanfatta vårt samtal", none⟩ : Msg)].getLast? =
        some (⟨"user", some "kan du sammanfatta vårt samtal", none⟩ : Msg)) ∧
    150 ≤ (buildStore (List.replicate 150 ("user", some "x", none))).rows.length ∧
    ((chatHandler (buildStore (List.replicate 150 ("user", some "x", none)))
        ⟨some [⟨"user", some "kan du sammanfatta vårt samtal", none⟩], none⟩
        "p" (.ok "hi") ["ok"] none).window.length =
      if isSummarizeOf (jsToLower
          (jsOrStr (some "kan du sammanfatta vårt samtal") "")) then 150
      else 60) :=
  ⟨by decide, by decide,
    window_size_two_tier
      (buildStore (List.replicate 150 ("user", some "x", none)))
      [⟨"user", some "kan du sammanfatta vårt samtal", none⟩] none "p"
      (.ok "hi") ["ok"] none
      ⟨"user", some "kan du sammanfatta vårt samtal", none⟩
      (by decide) (by decide)⟩

/-- C6: the context window handed to the backend is assembled from the
Store as it was before the incoming Turn was appended: it equals the
history read on the pre-request Store, and every row in it projects from
a Turn already present before the request, so it never contains the
just-arrived incoming Turn. -/
theorem window_assembled_before_append (st : Store) (msgs : List Msg)
    (mo : Option String) (pe : String) (oll : Except String String)
    (chunks : List String) (gerr : Option String) (last : Msg)
    (h : msgs.getLast? = some last) :
    (chatHandler st ⟨some msgs, mo⟩ pe oll chunks gerr).window =
      getGlobalHistoryFromDB st
        (isSummarizeOf (jsToLower (jsOrStr last.content ""))) ∧
    ∀ hr ∈ (chatHandler st ⟨some msgs, mo⟩ pe oll chunks gerr).window,
      ∃ t, t ∈ st.rows ∧ hr = projRow t := by
  rw [chatHandler_valid st msgs mo pe oll chunks gerr last h]
  refine ⟨processChat_window st last mo pe oll chunks gerr, ?_⟩
  intro hr hmem
  rw [processChat_window st last mo pe oll chunks gerr] at hmem
  exact historyQuery_mem st.rows _ hr hmem

/-- Witness for C6 at a concrete one-row store. -/
theorem window_assembled_before_append_witness :
    ([(⟨"user", some "hej", none⟩ : Msg)].getLast? =
        some (⟨"user", some "hej", none⟩ : Msg)) ∧
    ((chatHandler (buildStore [("user", some "tidigare", none)])
          ⟨some [⟨"user", some "hej", none⟩], none⟩ "p" (.ok "hi") [] none).window =
      getGlobalHistoryFromDB (buildStore [("user", some "tidigare", none)])
        (isSummarizeOf (jsToLower (jsOrStr (some "hej") ""))) ∧
    ∀ hr ∈ (chatHandler (buildStore [("user", some "tidigare", none)])
          ⟨some [⟨"user", some "hej", none⟩], none⟩ "p" (.ok "hi") [] none).window,
      ∃ t, t ∈ (buildStore [("user", some "tidigare", none)]).rows ∧
        hr = projRow t) :=
  ⟨by decide,
    window_assembled_before_append
      (buildStore [("user", some "tidigare", none)])
      [⟨"user", some "hej", none⟩] none "p" (.ok "hi") [] none
      ⟨"user", some "hej", none⟩ (by decide)⟩

/-- Whether a dispatched call went to the Gemini streaming/vision
variant. -/
def isGeminiCall : Option BackendCall → Bool
  | some (.gemini _ _ _ _) => true
  | _ => false

/-- Whether a dispatched call went to the Ollama batch/local variant. -/
def isOllamaCall : Option BackendCall → Bool
  | some (.ollama _ _) => true
  | _ => false

/-- The model identifier carried by a dispatched call. -/
def callModel : Option BackendCall → Option String
  | some (.ollama m _) => some m
  | some (.gemini m _ _ _) => some m
  | none => none

/-- C7 counterexample: a model identifier recognized as neither family
("gpt-4o") is not rejected — the request is silently dispatched to the
Ollama batch backend and succeeds. -/
theorem unrecognized_model_not_rejected :
    (chatHandler Store.empty ⟨some [⟨"user", some "hej", none⟩], some "gpt-4o"⟩
        "p" (.ok "hi") [] none).sentToBackend =
      some (.ollama "gpt-4o" [⟨"user", some "hej", none⟩]) ∧
    (chatHandler Store.empty ⟨some [⟨"user", some "hej", none⟩], some "gpt-4o"⟩
        "p" (.ok "hi") [] none).response = HttpResponse.batch "hi" :=
  ⟨by decide, by decide⟩

/-- C7 as amended: backend selection is a lexical tag dispatch on the
model identifier — identifiers containing "gemini" go to the
streaming/vision variant and every other identifier goes to the
batch/local variant (nothing is rejected), and the dispatched call
carries exactly the requested model identifier. -/
theorem backend_dispatch_by_model_tag (st : Store) (msgs : List Msg)
    (mo : Option String) (pe : String) (oll : Except String String)
    (chunks : List String) (gerr : Option String) (last : Msg)
    (h : msgs.getLast? = some last) :
    (if jsIncludes (jsOrStr mo "gemini-1.5-flash") "gemini" then
        isGeminiCall
          (chatHandler st ⟨some msgs, mo⟩ pe oll chunks gerr).sentToBackend
      else
        isOllamaCall
          (chatHandler st ⟨some msgs, mo⟩ pe oll chunks gerr).sentToBackend)
      = true ∧
    callModel (chatHandler st ⟨some msgs, mo⟩ pe oll chunks gerr).sentToBackend
      = some (jsOrStr mo "gemini-1.5-flash") := by
  rw [chatHandler_valid st msgs mo pe oll chunks gerr last h]
  cases hg : jsIncludes (jsOrStr mo "gemini-1.5-flash") "gemini" <;>
    rcases oll with e | a <;> rcases gerr with _ | e2 <;>
      simp [processChat, hg, isGeminiCall, isOllamaCall, callModel]

/-- Witness for C7 as amended, at a Gemini-tagged identifier. -/
theorem backend_dispatch_by_model_tag_witness :
    ([(⟨"user", some "hej", none⟩ : Msg)].getLast? =
        some (⟨"user", some "hej", none⟩ : Msg)) ∧
    ((if jsIncludes (jsOrStr (some "gemini-2.0-pro") "gemini-1.5-flash")
          "gemini" then
        isGeminiCall (chatHandler Store.empty
          ⟨some [⟨"user", some "hej", none⟩], some "gemini-2.0-pro"⟩ "p"
          (.ok "hi") ["x"] none).sentToBackend
      else
        isOllamaCall (chatHandler Store.empty
          ⟨some [⟨"user", some "hej", none⟩], some "gemini-2.0-pro"⟩ "p"
          (.ok "hi") ["x"] none).sentToBackend) = true ∧
    callModel (chatHandler Store.empty
        ⟨some [⟨"user", some "hej", none⟩], some "gemini-2.0-pro"⟩ "p"
        (.ok "hi") ["x"] none).sentToBackend =
      some (jsOrStr (some "gemini-2.0-pro") "gemini-1.5-flash")) :=
  ⟨by decide,
    backend_dispatch_by_model_tag Store.empty [⟨"user", some "hej", none⟩]
      (some "gemini-2.0-pro") "p" (.ok "hi") ["x"] none
      ⟨"user", some "hej", none⟩ (by decide)⟩

/-- C8: GET /api/models always answers HTTP 200 and returns the cloud
entries followed by the local entries; a source that is absent, raises,
or answers non-ok contributes zero entries, so when both sources are
unavailable the body is the empty sequence, still with status 200. -/
theorem models_aggregate_never_fails (key : Option String)
    (gf : Except String (List GeminiModelEntry))
    (lf : Except String (Bool × List OllamaModelEntry)) :
    (modelsHandler key gf lf).status = 200 ∧
    (modelsHandler key gf lf).body =
      (match key, gf with
       | some k, .ok ms =>
         if k == "" then [] else
           (ms.filter (fun m => jsIncludes m.name "gemini" &&
               m.supportedGenerationMethods.contains "generateContent")).map
             (fun m =>
               ⟨jsReplaceFirst m.name "models/" "", "☁️ " ++ m.displayName⟩)
       | _, _ => []) ++
      (match lf with
       | .ok (true, ms) => ms.map (fun m => ⟨m.name, "🏠 Ollama: " ++ m.name⟩)
       | _ => []) := by
  refine ⟨rfl, ?_⟩
  rcases key with _ | k <;> rcases gf with e | ms <;>
    rcases lf with e2 | ⟨b, ms2⟩ <;> (try cases b) <;>
      simp [modelsHandler, jsTruthy]

/-- C9: a request body with `messages` absent, or with an empty
`messages` array, raises a TypeError before the try block: the fault
escapes the handler unhandled — no client-error response is produced —
and nothing is written to the Store. -/
theorem malformed_messages_fault_unhandled :
    ((chatHandler Store.empty ⟨none, none⟩ "p" (.ok "hi") [] none).response =
        HttpResponse.thrown "TypeError: messages is undefined" ∧
      (chatHandler Store.empty ⟨none, none⟩ "p" (.ok "hi") [] none).store.rows
        = [] ∧
      (chatHandler Store.empty ⟨none, none⟩ "p"
          (.ok "hi") [] none).sentToBackend = none) ∧
    ((chatHandler Store.empty ⟨some [], none⟩ "p" (.ok "hi") [] none).response =
        HttpResponse.thrown "TypeError: lastIncoming is undefined" ∧
      (chatHandler Store.empty ⟨some [], none⟩ "p"
          (.ok "hi") [] none).store.rows = [] ∧
      (chatHandler Store.empty ⟨some [], none⟩ "p"
          (.ok "hi") [] none).sentToBackend = none) :=
  ⟨⟨rfl, rfl, rfl⟩, ⟨rfl, rfl, rfl⟩⟩

/-- Head of the parts list of the incoming message sent to Gemini. -/
theorem lastPartsOf_head (m : Msg) :
    (lastPartsOf m).head? = some (.text (jsOrStr m.content " ")) := by
  simp [lastPartsOf]

/-- Head of the parts list of a mapped history row sent to Gemini. -/
theorem toGeminiMsg_parts_head (hr : HistRow) :
    (toGeminiMsg hr).parts.head? = some (.text (jsOrStr hr.content " ")) := by
  simp [toGeminiMsg]

/-- An absent or empty nullable string falls back to the default. -/
theorem jsOrStr_of_empty (c : Option String) (d : String)
    (h : c = none ∨ c = some "") : jsOrStr c d = d := by
  rcases h with h1 | h1 <;> simp [jsOrStr, h1]

/-- C10: on the streaming/vision variant, the incoming message with
empty or absent text is sent to the backend with the single space " " as
its text part, every mapped history row's text part is
`content || " "` (hence " " when its content is empty or absent), while
the Store keeps the original content of the incoming Turn unchanged. -/
theorem empty_content_sent_as_space_stored_unchanged (st : Store)
    (msgs : List Msg) (mo : Option String) (pe : String)
    (oll : Except String String) (chunks : List String)
    (gerr : Option String) (last : Msg)
    (h : msgs.getLast? = some last)
    (hg : jsIncludes (jsOrStr mo "gemini-1.5-flash") "gemini" = true)
    (hempty : last.content = none ∨ last.content = some "") :
    (match (chatHandler st ⟨some msgs, mo⟩ pe oll chunks gerr).sentToBackend with
     | some (.gemini _ _ hist lp) =>
       lp.head? = some (.text " ") ∧
       ∀ g ∈ hist, ∃ hr,
         hr ∈ (chatHandler st ⟨some msgs, mo⟩ pe oll chunks gerr).window ∧
         g.parts.head? = some (.text (jsOrStr hr.content " ")) ∧
         ((hr.content = none ∨ hr.content = some "") →
           g.parts.head? = some (.text " "))
     | _ => False) ∧
    (chatHandler st ⟨some msgs, mo⟩ pe oll chunks gerr).store.rows[st.rows.length]?
      = some (userTurn st last) := by
  constructor
  · rw [chatHandler_valid st msgs mo pe oll chunks gerr last h]
    have hred : (processChat st last mo pe oll chunks gerr).sentToBackend =
        some (.gemini (jsOrStr mo "gemini-1.5-flash") pe
          ((processChat st last mo pe oll chunks gerr).window.map toGeminiMsg)
          (lastPartsOf last)) := by
      rcases gerr with _ | e <;> simp [processChat, hg]
    rw [hred]
    refine ⟨?_, ?_⟩
    · rw [lastPartsOf_head, jsOrStr_of_empty last.content " " hempty]
    · intro g hgmem
      rcases List.mem_map.mp hgmem with ⟨hr, hrmem, rfl⟩
      refine ⟨hr, hrmem, toGeminiMsg_parts_head hr, ?_⟩
      intro hemp
      rw [toGeminiMsg_parts_head hr, jsOrStr_of_empty hr.content " " hemp]
  · rw [chatHandler_valid st msgs mo pe oll chunks gerr last h]
    obtain ⟨rest, hr2⟩ := processChat_rows_shape st last mo pe oll chunks gerr
    rw [hr2]
    exact getElem_past_front _ _ _

/-- Witness for C10: an incoming message with absent content on a
one-row store whose stored row also has empty content. -/
theorem empty_content_sent_as_space_witness :
    ([(⟨"user", none, none⟩ : Msg)].getLast? =
        some (⟨"user", none, none⟩ : Msg)) ∧
    jsIncludes (jsOrStr none "gemini-1.5-flash") "gemini" = true ∧
    ((none : Option String) = none ∨ (none : Option String) = some "") ∧
    ((match (chatHandler (buildStore [("user", some "", none)])
          ⟨some [⟨"user", none, none⟩], none⟩ "p" (.ok "hi") ["x"]
          none).sentToBackend with
     | some (.gemini _ _ hist lp) =>
       lp.head? = some (.text " ") ∧
       ∀ g ∈ hist, ∃ hr,
         hr ∈ (chatHandler (buildStore [("user", some "", none)])
            ⟨some [⟨"user", none, none⟩], none⟩ "p" (.ok "hi") ["x"]
            none).window ∧
         g.parts.head? = some (.text (jsOrStr hr.content " ")) ∧
         ((hr.content = none ∨ hr.content = some "") →
           g.parts.head? = some (.text " "))
     | _ => False) ∧
    (chatHandler (buildStore [("user", some "", none)])
        ⟨some [⟨"user", none, none⟩], none⟩ "p" (.ok "hi") ["x"]
        none).store.rows[(buildStore [("user", some "", none)]).rows.length]?
      = some (userTurn (buildStore [("user", some "", none)])
          ⟨"user", none, none⟩)) :=
  ⟨by decide, by decide, by decide,
    empty_content_sent_as_space_stored_unchanged
      (buildStore [("user", some "", none)]) [⟨"user", none, none⟩] none "p"
      (.ok "hi") ["x"] none ⟨"user", none, none⟩
      (by decide) (by decide) (by decide)⟩

end DAA
